import Mathlib

/-!
Shallow embedding of `src/main.py`, a FastAPI backend that tracks a
per-wallet accruing synthetic yield balance and periodically settles it by
an on-chain mint.

Modelling conventions:
* Python floats are modelled as exact rationals (`ℚ`).
* The global `user_sessions` dict is a function map `String → Option Session`.
* `datetime.now().timestamp()` is passed in explicitly as a rational `now`.
* The Web3 collaborators (`w3`, `admin_account`, the token contract) are
  modelled by a `w3ok : Bool` flag (both `w3` and `admin_account` present)
  together with an `Oracle` of external-call outcomes; every external call
  may raise, which is modelled by `Except PyErr`.
* Raising `HTTPException` is modelled by `Except HTTPError` on the handler
  result; `Header(None)` with Python truthiness (`if not x_wallet_address`)
  is modelled by an `Option String` argument where both `none` and the empty
  string fail the check.
-/

/-- A Python exception raised by an external call (network, Web3, signing…). -/
inductive PyErr
  | err : String → PyErr
  deriving DecidableEq, Repr

/-- One entry of the static strategy table: `{"apy": …, "weight": …}`. -/
structure Strategy where
  apy : ℚ
  weight : ℚ
  deriving DecidableEq, Repr

/-- The static `STRATEGIES` dict of `main.py` (lines 49-62). -/
def STRATEGIES : List (String × Strategy) :=
  [("aave_lending", ⟨0.85, 0.15⟩),
   ("compound", ⟨0.78, 0.12⟩),
   ("uniswap_v3", ⟨2.45, 0.18⟩),
   ("curve_stable", ⟨1.25, 0.10⟩),
   ("yearn_vaults", ⟨1.98, 0.15⟩),
   ("convex", ⟨3.12, 0.10⟩),
   ("balancer", ⟨1.67, 0.08⟩),
   ("sushiswap", ⟨2.89, 0.05⟩),
   ("mev_arb", ⟨4.25, 0.03⟩),
   ("flashloan", ⟨5.12, 0.02⟩),
   ("governance", ⟨0.95, 0.01⟩),
   ("staking", ⟨1.42, 0.01⟩)]

/-- `AI_BOOST = 2.5` (line 64). -/
def AI_BOOST : ℚ := 2.5

/-- Default `REWARD_TOKEN_ADDRESS` (line 23). -/
def TOKEN_ADDRESS : String := "0x8502496d6739dd6e18ced318c4b5fc12a5fb2c2c"

/-- Python `str.lower()` as used on wallet addresses (lines 95, 112, 200):
lower-case each character (addresses are ASCII). -/
def pyLower (s : String) : String :=
  ⟨s.data.map Char.toLower⟩

/-- `calculate_earnings(principal, seconds)` (lines 73-76):
`total_apy = sum(s["apy"] * s["weight"] for s in STRATEGIES.values()) * AI_BOOST`,
`rate = total_apy / (365 * 24 * 3600)`, returns
`(principal * rate * seconds, total_apy)`. -/
def calculate_earnings (principal seconds : ℚ) : ℚ × ℚ :=
  let total_apy := ((STRATEGIES.map fun kv => kv.2.apy * kv.2.weight).sum) * AI_BOOST
  let rate := total_apy / (365 * 24 * 3600)
  (principal * rate * seconds, total_apy)

/-- One `user_sessions[wallet]` record (lines 96-100, 115-119). -/
structure Session where
  start : ℚ
  earned : ℚ
  last_mint : ℚ
  deriving DecidableEq, Repr

/-- The global `user_sessions` dict (line 65). -/
abbrev SessionMap := String → Option Session

/-- A transaction receipt as used on lines 185-191. -/
structure Receipt where
  status : Nat
  blockNumber : Nat
  deriving DecidableEq, Repr

/-- Outcomes of the external Web3/signing calls made by `mint_tokens`
(lines 161-185); each call may raise (`Except.error`). -/
structure Oracle where
  to_checksum : String → Except PyErr String
  gas_price : Except PyErr ℚ
  get_transaction_count : Except PyErr Nat
  chain_id : Except PyErr Nat
  sign_transaction : Except PyErr String
  send_raw_transaction : Except PyErr String
  wait_for_transaction_receipt : String → Except PyErr Receipt

/-- Python `int()` applied to a rational: truncation toward zero (used for
`int(amount * 10**18)` on line 155 and `int(gas_price * 1.2)` on line 166).
`Int` division in Lean truncates toward zero, matching Python `int()`. -/
def pyInt (q : ℚ) : Int :=
  q.num / (q.den : Int)

/-- The `try:` body of `mint_tokens` (lines 154-193), threading every
external call through the `Oracle`; any `Except.error` models a raised
Python exception reaching the `except` clause on line 194. -/
def mint_body (o : Oracle) (wallet : String) (amount : ℚ) :
    Except PyErr (Option String) := do
  let token_amount := pyInt (amount * 10 ^ 18)
  if token_amount ≤ 0 then
    return none
  let _tokenAddr ← o.to_checksum TOKEN_ADDRESS
  let gp ← o.gas_price
  let _gas_price := pyInt (gp * (12 / 10))
  let _nonce ← o.get_transaction_count
  let _walletCk ← o.to_checksum wallet
  let _cid ← o.chain_id
  let _signed ← o.sign_transaction
  let tx_hash ← o.send_raw_transaction
  let _receipt ← o.wait_for_transaction_receipt tx_hash
  return some tx_hash

/-- `mint_tokens(wallet, amount)` (lines 150-196): bare `return` when Web3 or
the admin account is missing (line 151-152), otherwise the `try:` body with
`except Exception: return None` (lines 194-196).  The result is the value the
Python call produces; `Except.error` would mean an exception propagating to
the caller. -/
def mint_tokens (o : Oracle) (w3ok : Bool) (wallet : String) (amount : ℚ) :
    Except PyErr (Option String) :=
  if !w3ok then Except.ok none
  else
    match mint_body o wallet amount with
    | Except.ok r => Except.ok r
    | Except.error _ => Except.ok none

/-- `start_engine` (lines 93-105): `user_sessions[wallet.lower()] = {start:
now, earned: 0, last_mint: now}`, returns success. -/
def start_engine (walletAddress : String) (now : ℚ) (sessions : SessionMap) :
    SessionMap × Bool :=
  let wallet := pyLower walletAddress
  (fun k => if k = wallet then some ⟨now, 0, now⟩ else sessions k, true)

/-- An `HTTPException(status, detail)`. -/
structure HTTPError where
  status : Nat
  detail : String
  deriving DecidableEq, Repr

/-- The JSON body returned by `get_metrics` (lines 141-148); the formatted
`total_apy` percentage string is kept as the underlying rational. -/
structure MetricsOut where
  totalProfit : ℚ
  hourlyRate : ℚ
  dailyProfit : ℚ
  activePositions : Nat
  pendingRewards : ℚ
  total_apy : ℚ
  deriving DecidableEq, Repr

/-- `get_metrics` (lines 107-148).  Returns the session map after the call
together with the HTTP outcome.  The create-if-missing of lines 114-119 is
reflected by reading the session with default `⟨now, 0, now⟩` and by the
final write-back of the (in Python, in-place mutated) session at key
`wallet`; all other keys are untouched. -/
def get_metrics (o : Oracle) (w3ok : Bool) (header : Option String) (now : ℚ)
    (sessions : SessionMap) : SessionMap × Except HTTPError MetricsOut :=
  match header with
  | none => (sessions, Except.error ⟨400, "Wallet header required"⟩)
  | some h =>
    if h = "" then (sessions, Except.error ⟨400, "Wallet header required"⟩)
    else
      let wallet := pyLower h
      let s0 := (sessions wallet).getD ⟨now, 0, now⟩
      let running := now - s0.start
      let since_mint := now - s0.last_mint
      let principal : ℚ := 100000
      let e := calculate_earnings principal running
      let earnings := e.1
      let apy := e.2
      let s1 : Session := { s0 with earned := s0.earned + earnings }
      let s2 : Session :=
        if 5 ≤ since_mint ∧ w3ok = true then
          match mint_tokens o w3ok wallet s1.earned with
          | Except.ok _ => { s1 with last_mint := now, earned := 0 }
          | Except.error _ => s1
        else s1
      let sessions2 : SessionMap := fun k => if k = wallet then some s2 else sessions k
      let hourly := if 0 < running then earnings / running * 3600 else 0
      (sessions2,
       Except.ok
         { totalProfit := s2.earned, hourlyRate := hourly, dailyProfit := hourly * 24,
           activePositions := STRATEGIES.length, pendingRewards := s2.earned * (1 / 10),
           total_apy := apy })

/-- `stop_engine` (lines 198-203): `wallet = req.get("walletAddress", "").lower()`,
delete the session if present, always return success. -/
def stop_engine (walletAddress : Option String) (sessions : SessionMap) :
    SessionMap × Bool :=
  let wallet := pyLower (walletAddress.getD "")
  (fun k => if k = wallet then none else sessions k, true)

/-!
Interleaving model for the concurrency claims.  FastAPI runs the plain-`def`
handler `get_metrics` on a thread pool, so two requests for the same wallet
can interleave; in particular the blocking `mint_tokens` network call sits
between the throttle check (line 131) and the state updates (lines 134-135).
A task is one in-flight `get_metrics` request for a fixed wallet whose
session already exists; its body is split at the natural interleaving
points of lines 122-137 into atomic program steps. -/

/-- Task-local state of one in-flight `get_metrics` request: its `now`
timestamp, a program counter over the steps of lines 122-137, the locals
`since_mint` (computed on line 124) and the amount passed to `mint_tokens`
(read on line 133), the value `mint_tokens` returned, and whether the
throttle check of line 131 let the task proceed to the mint. -/
structure PyTask where
  now : ℚ
  pc : Nat
  since_mint : ℚ
  mintAmount : ℚ
  mintResult : Except PyErr (Option String)
  granted : Bool

/-- One atomic step of a `get_metrics` task on the shared session:
pc 0 = lines 122-128 (read clock, compute `running`/`since_mint`, accrue
`earned += earnings`); pc 1 = the throttle check of line 131;
pc 2 = the blocking `mint_tokens(wallet, session["earned"])` call (line 133);
pc 3 = lines 134-135 (`last_mint = now; earned = 0`); pc 4 = done. -/
def taskStep (o : Oracle) (w3ok : Bool) (wallet : String) (t : PyTask)
    (s : Session) : PyTask × Session :=
  match t.pc with
  | 0 =>
    let running := t.now - s.start
    let sm := t.now - s.last_mint
    let earnings := (calculate_earnings 100000 running).1
    ({ t with pc := 1, since_mint := sm }, { s with earned := s.earned + earnings })
  | 1 =>
    if 5 ≤ t.since_mint ∧ w3ok = true then
      ({ t with pc := 2, granted := true }, s)
    else
      ({ t with pc := 4 }, s)
  | 2 =>
    let r := mint_tokens o w3ok wallet s.earned
    ({ t with pc := 3, mintAmount := s.earned, mintResult := r }, s)
  | 3 =>
    ({ t with pc := 4 }, { s with last_mint := t.now, earned := 0 })
  | _ => (t, s)

/-- Run two `get_metrics` tasks for the same wallet under an explicit
schedule (`false` = step task 0, `true` = step task 1). -/
def runSched (o : Oracle) (w3ok : Bool) (wallet : String) :
    List Bool → (PyTask × PyTask) × Session → (PyTask × PyTask) × Session
  | [], st => st
  | i :: rest, ((t0, t1), s) =>
    if i then
      let p := taskStep o w3ok wallet t1 s
      runSched o w3ok wallet rest ((t0, p.1), p.2)
    else
      let p := taskStep o w3ok wallet t0 s
      runSched o w3ok wallet rest ((p.1, t1), p.2)

/-- A fresh task for a `get_metrics` request arriving at time `now`. -/
def taskAt (now : ℚ) : PyTask :=
  ⟨now, 0, 0, 0, Except.ok none, false⟩

/-- An oracle on which every external call succeeds and the transaction
receipt is confirmed (`status = 1`). -/
def okOracle : Oracle where
  to_checksum := fun a => Except.ok a
  gas_price := Except.ok 20
  get_transaction_count := Except.ok 7
  chain_id := Except.ok 1
  sign_transaction := Except.ok "signed"
  send_raw_transaction := Except.ok "0xdeadbeef"
  wait_for_transaction_receipt := fun _ => Except.ok ⟨1, 19000000⟩

/-- An oracle on which `w3.eth.send_raw_transaction` raises, so the external
mint fails with an exception caught inside `mint_tokens`. -/
def failOracle : Oracle :=
  { okOracle with send_raw_transaction := Except.error (PyErr.err "connection") }

/-- The empty `user_sessions` dict. -/
def emptyMap : SessionMap := fun _ => none

/-- A `user_sessions` dict holding exactly one session, for wallet `"w"`. -/
def mapW (s : Session) : SessionMap :=
  fun k => if k = "w" then some s else none

/-- The `totalProfit` field of a successful metrics response (0 for an HTTP
error, which returns no body). -/
def totalProfitOf : Except HTTPError MetricsOut → ℚ
  | Except.ok r => r.totalProfit
  | Except.error _ => 0

/-- Helper: `mint_tokens` is total — on every oracle and input it returns a
value (`Except.ok`), never a raised exception: the missing-Web3 path and the
`token_amount ≤ 0` path return early, and the surrounding
`except Exception: return None` catches everything else. -/
theorem mint_tokens_ok (o : Oracle) (b : Bool) (w : String) (a : ℚ) :
    ∃ r, mint_tokens o b w a = Except.ok r := by
  cases b with
  | false => exact ⟨none, rfl⟩
  | true =>
    cases hb : mint_body o w a with
    | ok r => exact ⟨r, by simp [mint_tokens, hb]⟩
    | error e => exact ⟨none, by simp [mint_tokens, hb]⟩

/-- Helper: on a non-empty wallet header whose session already exists,
`get_metrics` rewrites exactly the entry of that wallet in the session map,
and the written-back session keeps the stored `start` timestamp (so it is
the existing session, mutated — not a freshly created one). -/
theorem get_metrics_existing (o : Oracle) (w3ok : Bool) (h : String) (hne : h ≠ "")
    (now : ℚ) (m : SessionMap) (sess : Session) (hm : m (pyLower h) = some sess) :
    ∃ s2 : Session,
      (get_metrics o w3ok (some h) now m).1 =
        (fun k => if k = pyLower h then some s2 else m k) ∧
      s2.start = sess.start := by
  simp only [get_metrics]
  rw [if_neg hne]
  simp only [hm, Option.getD]
  by_cases hc : 5 ≤ now - sess.last_mint ∧ w3ok = true
  · cases hmt : mint_tokens o w3ok (pyLower h)
        (sess.earned + (calculate_earnings 100000 (now - sess.start)).1) with
    | ok r => exact ⟨⟨sess.start, 0, now⟩, by simp [hc, hmt], rfl⟩
    | error e =>
      exact ⟨⟨sess.start, sess.earned + (calculate_earnings 100000 (now - sess.start)).1,
        sess.last_mint⟩, by simp [hc, hmt], rfl⟩
  · exact ⟨⟨sess.start, sess.earned + (calculate_earnings 100000 (now - sess.start)).1,
      sess.last_mint⟩, by simp [hc], rfl⟩

/-- C1: refutation of the claim on the code.  Wallet `"w"` has an unsettled
`earned` of 100 and a settlement is admitted at `now = 10` (the 5-second
interval has elapsed and minting is enabled); the external send of the mint
transaction raises, so the mint fails — yet after `get_metrics` the
session's unsettled amount is 0, not its pre-attempt value 100 plus the
(positive) accrual added during the call. -/
theorem failed_mint_zeroes_unsettled :
    (get_metrics failOracle true (some "w") 10 (mapW ⟨0, 100, 0⟩)).1 "w" =
      some ⟨0, 0, 10⟩ ∧
    (0 : ℚ) < 100 + (calculate_earnings 100000 10).1 := by
  constructor
  · simp only [show pyLower "w" = "w" from rfl, get_metrics, mapW]
    norm_num +decide [calculate_earnings, STRATEGIES, AI_BOOST, mint_tokens, mint_body,
      pyInt, failOracle, okOracle, TOKEN_ADDRESS]
  · norm_num [calculate_earnings, STRATEGIES, AI_BOOST]

/-- C2: refutation of the claim on the code.  Two concurrent `get_metrics`
requests for the same wallet: task 0 (at `now = 10`) accrues, is admitted,
and calls the external mint, which confirms (`Except.ok`); while the call is
in flight task 1 (at `now = 12`) adds fresh accrual; task 0 then reconciles.
The code overwrites `earned` with 0, whereas subtracting the confirmed
amount `A` (clamped at 0) from the current value would leave the in-flight
accrual — so the final unsettled amount differs from the claimed
`max (current - A) 0`. -/
theorem confirmed_settlement_overwrites_concurrent_accrual :
    (runSched okOracle true "w" [false, false, false, true, false]
        ((taskAt 10, taskAt 12), ⟨0, 0, 0⟩)).2.earned = 0 ∧
    (runSched okOracle true "w" [false, false, false, true, false]
        ((taskAt 10, taskAt 12), ⟨0, 0, 0⟩)).1.1.mintResult =
      Except.ok (some "0xdeadbeef") ∧
    (runSched okOracle true "w" [false, false, false, true, false]
        ((taskAt 10, taskAt 12), ⟨0, 0, 0⟩)).2.earned ≠
      max ((runSched okOracle true "w" [false, false, false, true]
          ((taskAt 10, taskAt 12), ⟨0, 0, 0⟩)).2.earned -
        (runSched okOracle true "w" [false, false, false, true, false]
          ((taskAt 10, taskAt 12), ⟨0, 0, 0⟩)).1.1.mintAmount) 0 := by
  simp only [runSched, taskStep, taskAt]
  norm_num +decide [calculate_earnings, STRATEGIES, AI_BOOST,
    mint_tokens, mint_body, pyInt, failOracle, okOracle, TOKEN_ADDRESS]
  rfl

/-- C3: refutation of the claim on the code.  Wallet `"w"` has an existing
session started at 0 with nothing unsettled; two `get_metrics` calls both at
`now = 10` (zero elapsed time between them, minting disabled so no
settlement is admitted) report different total unsettled amounts: each call
re-adds the accrual for the whole `now - start` window, so the second read
double-accrues. -/
theorem metrics_double_accrues_at_same_instant :
    totalProfitOf (get_metrics okOracle false (some "w") 10
        ((get_metrics okOracle false (some "w") 10 (mapW ⟨0, 0, 0⟩)).1)).2 ≠
      totalProfitOf (get_metrics okOracle false (some "w") 10 (mapW ⟨0, 0, 0⟩)).2 := by
  simp only [show pyLower "w" = "w" from rfl, get_metrics, mapW, totalProfitOf]
  norm_num +decide [calculate_earnings, STRATEGIES, AI_BOOST,
    mint_tokens, mint_body, pyInt, failOracle, okOracle, TOKEN_ADDRESS]

/-- C4: for every principal ≥ 0 and elapsedSeconds ≥ 0, `calculate_earnings`
returns `principal * (effectiveApy / (365 * 86400)) * elapsedSeconds`
together with `effectiveApy = AI_BOOST * Σ (apy * weight) = 9639/2000`
(= 4.8195) over the fixed strategy table; the output is a function of the
two inputs alone, hence deterministic. -/
theorem calculate_earnings_formula (p s : ℚ) (hp : 0 ≤ p) (hs : 0 ≤ s) :
    calculate_earnings p s =
      (p * (9639 / 2000 / (365 * 86400)) * s, 9639 / 2000) := by
  norm_num [calculate_earnings, STRATEGIES, AI_BOOST, Prod.mk.injEq]

/-- C4 witness: the formula instantiated at principal 100000 over one hour. -/
theorem calculate_earnings_formula_witness :
    (0 : ℚ) ≤ 100000 ∧ (0 : ℚ) ≤ 3600 ∧
    calculate_earnings 100000 3600 =
      (100000 * (9639 / 2000 / (365 * 86400)) * 3600, 9639 / 2000) :=
  ⟨by norm_num, by norm_num,
   calculate_earnings_formula 100000 3600 (by norm_num) (by norm_num)⟩

/-- C5: refutation of the claim on the code.  For the negative elapsed time
-3600 (clock skew), `calculate_earnings` returns a strictly negative accrued
amount instead of the claimed 0. -/
theorem negative_elapsed_gives_negative_accrual :
    (calculate_earnings 100000 (-3600)).1 < 0 := by
  norm_num [calculate_earnings, STRATEGIES, AI_BOOST]

/-- C6: refutation of the claim on the code.  Two concurrent `get_metrics`
tasks for the same wallet, both at `now = 10`, within the throttle interval
of a session last settled at 0: under the interleaving in which both
execute the `since_mint >= 5` check before either updates `last_mint` (the
check is a plain read with no atomic check-and-set), both tasks are admitted
to start a settlement — not at most one. -/
theorem throttle_admits_two_concurrent_settlements :
    (runSched okOracle true "w" [false, true, false, true]
        ((taskAt 10, taskAt 10), ⟨0, 0, 0⟩)).1.1.granted = true ∧
    (runSched okOracle true "w" [false, true, false, true]
        ((taskAt 10, taskAt 10), ⟨0, 0, 0⟩)).1.2.granted = true := by
  simp only [runSched, taskStep, taskAt]
  norm_num +decide [calculate_earnings, STRATEGIES, AI_BOOST,
    mint_tokens, mint_body, pyInt, failOracle, okOracle, TOKEN_ADDRESS]

/-- C7: when `get_metrics` is invoked with no wallet identifier — a missing
header (`none`) or, by Python truthiness, an empty one — it fails with the
400 client error `"Wallet header required"` and the session map is returned
unchanged: no state is mutated. -/
theorem metrics_missing_wallet_no_mutation (o : Oracle) (b : Bool) (now : ℚ)
    (m : SessionMap) :
    get_metrics o b none now m =
      (m, Except.error ⟨400, "Wallet header required"⟩) ∧
    get_metrics o b (some "") now m =
      (m, Except.error ⟨400, "Wallet header required"⟩) :=
  ⟨rfl, rfl⟩

/-- C8: wallet addresses are canonicalized case-insensitively: after
`start_engine` with address `s`, a `get_metrics` with any case variant `t`
(same lower-case form) resolves to the single session created by the start
call — the looked-up session keeps the start call's `start` timestamp, and
no entry other than the canonical one is touched. -/
theorem case_insensitive_wallet_resolution (s t : String)
    (h : pyLower t = pyLower s) (hne : t ≠ "") (o : Oracle) (w3ok : Bool)
    (now0 now1 : ℚ) (m : SessionMap) :
    ∃ st : Session,
      (get_metrics o w3ok (some t) now1 (start_engine s now0 m).1).1 (pyLower t) =
        some st ∧
      st.start = now0 ∧
      ∀ k, k ≠ pyLower t →
        (get_metrics o w3ok (some t) now1 (start_engine s now0 m).1).1 k =
          (start_engine s now0 m).1 k := by
  have hm : (start_engine s now0 m).1 (pyLower t) = some ⟨now0, 0, now0⟩ := by
    simp [start_engine, h]
  obtain ⟨s2, hmap, hstart⟩ :=
    get_metrics_existing o w3ok t hne now1 (start_engine s now0 m).1 ⟨now0, 0, now0⟩ hm
  refine ⟨s2, ?_, hstart, ?_⟩
  · rw [hmap]; simp
  · intro k hk; rw [hmap]; simp [hk]

/-- C8 witness: `start_engine "0xABC"` then `get_metrics` with header
`"0xabc"` resolves to the session created by the start call. -/
theorem case_insensitive_wallet_resolution_witness :
    ∃ st : Session,
      (get_metrics okOracle false (some "0xabc") 2
          (start_engine "0xABC" 1 emptyMap).1).1 (pyLower "0xabc") = some st ∧
      st.start = 1 ∧
      ∀ k, k ≠ pyLower "0xabc" →
        (get_metrics okOracle false (some "0xabc") 2
            (start_engine "0xABC" 1 emptyMap).1).1 k =
          (start_engine "0xABC" 1 emptyMap).1 k :=
  case_insensitive_wallet_resolution "0xABC" "0xabc" (by decide) (by decide)
    okOracle false 1 2 emptyMap

/-- C9: `stop_engine` is idempotent: for every wallet it returns success with
no error, afterwards the wallet has no session, and on a wallet with no
existing session the session map is unchanged. -/
theorem stop_engine_idempotent (w : String) (m : SessionMap) :
    (stop_engine (some w) m).2 = true ∧
    (stop_engine (some w) m).1 (pyLower w) = none ∧
    (m (pyLower w) = none → (stop_engine (some w) m).1 = m) := by
  refine ⟨rfl, by simp [stop_engine], fun h => funext fun k => ?_⟩
  by_cases hk : k = pyLower w
  · subst hk; simp [stop_engine, h]
  · simp [stop_engine, hk]

/-- C9 witness: stopping an unknown wallet on the empty session map succeeds
and leaves the map untouched. -/
theorem stop_engine_idempotent_witness :
    (stop_engine (some "0xa") emptyMap).2 = true ∧
    (stop_engine (some "0xa") emptyMap).1 = emptyMap :=
  ⟨(stop_engine_idempotent "0xa" emptyMap).1,
   (stop_engine_idempotent "0xa" emptyMap).2.2 rfl⟩

/-- C10: `mint_tokens` never propagates an exception — on every oracle and
input it returns a value (a transaction hash or `None`); consequently the
`except` handler around the mint call in `get_metrics` is unreachable, and
whenever a settlement is admitted (non-empty wallet with an existing
session, 5 ≤ now - last_mint, minting enabled) the written-back session has
`last_mint = now` and `earned = 0` regardless of the mint's outcome. -/
theorem mint_never_raises_and_settlement_always_reconciles :
    (∀ (o : Oracle) (b : Bool) (w : String) (a : ℚ),
      ∃ r, mint_tokens o b w a = Except.ok r) ∧
    (∀ (o : Oracle) (h : String) (now : ℚ) (m : SessionMap) (sess : Session),
      h ≠ "" → m (pyLower h) = some sess → 5 ≤ now - sess.last_mint →
      (get_metrics o true (some h) now m).1 (pyLower h) =
        some ⟨sess.start, 0, now⟩) := by
  refine ⟨mint_tokens_ok, ?_⟩
  intro o h now m sess hne hm hge
  obtain ⟨r, hr⟩ := mint_tokens_ok o true (pyLower h)
    (sess.earned + (calculate_earnings 100000 (now - sess.start)).1)
  simp only [get_metrics]
  rw [if_neg hne]
  simp [hm, hge, hr]

/-- C10 witness: with the failing oracle (the send raises) and an admitted
settlement for wallet `"w"` at `now = 10`, `mint_tokens` still returns a
value and the written-back session is reconciled to `earned = 0`,
`last_mint = 10`. -/
theorem mint_never_raises_witness :
    (∃ r, mint_tokens failOracle true "w" 100 = Except.ok r) ∧
    (get_metrics failOracle true (some "w") 10 (mapW ⟨0, 100, 0⟩)).1 (pyLower "w") =
      some ⟨0, 0, 10⟩ :=
  ⟨mint_never_raises_and_settlement_always_reconciles.1 failOracle true "w" 100,
   mint_never_raises_and_settlement_always_reconciles.2 failOracle "w" 10
     (mapW ⟨0, 100, 0⟩) ⟨0, 100, 0⟩ (by decide) rfl (by norm_num)⟩
